import Mathlib

/-!
Shallow embedding of src/server.js (MJ497/auf): a payment-verification relay.
The file models the JavaScript values that flow through the two handler
variants (the Express route in lines 74-126 and the serverless handler in
lines 156-221), the helper amountsMatch (duplicated in the source at lines
59-72 and 142-154), and the request/response shaping.  JavaScript numbers
are modelled as rationals plus NaN; Math.round is round-half-up on
rationals.
-/

/-- Result of a JS numeric conversion: either NaN or an exact numeric value,
modelled as a rational. -/
inductive JSNum where
  | nan : JSNum
  | num : ℚ → JSNum
deriving DecidableEq

/-- The JS values relevant to the request body fields and transaction
fields: undefined, null, numbers, strings and booleans. -/
inductive JSValue where
  | undefined : JSValue
  | null : JSValue
  | vnum : JSNum → JSValue
  | vstr : String → JSValue
  | vbool : Bool → JSValue
deriving DecidableEq

/-- JS Math.round on an exact rational: round half toward positive
infinity, so Math.round (-2.5) = -2 and Math.round (2.5) = 3. -/
def jsRound (q : ℚ) : ℤ := ⌊q + 1/2⌋

/-- Fold a list of characters into the natural number they denote in
decimal; none when a non-digit occurs. An empty list gives some 0, callers
reject emptiness themselves. -/
def digitsToNat (l : List Char) : Option ℕ :=
  l.foldl
    (fun acc c =>
      acc.bind (fun a => if c.isDigit then some (10 * a + (c.toNat - 48)) else none))
    (some 0)

/-- Parse an unsigned decimal literal (digits, at most one decimal point,
at least one digit overall) into a rational; none on any other shape. -/
def parseUnsignedDec (l : List Char) : Option ℚ :=
  let intPart := l.takeWhile (· != '.')
  let rest := l.dropWhile (· != '.')
  match rest with
  | [] =>
      if intPart.isEmpty then none
      else (digitsToNat intPart).map (fun n => (n : ℚ))
  | _ :: frac =>
      if frac.contains '.' then none
      else if intPart.isEmpty && frac.isEmpty then none
      else
        (digitsToNat intPart).bind fun i =>
          (digitsToNat frac).map fun f =>
            (i : ℚ) + (f : ℚ) / (10 : ℚ) ^ frac.length

/-- Models the JS builtin Number conversion on strings for the plain
decimal forms (optional surrounding whitespace, optional sign, digits with
at most one decimal point). The empty or all-whitespace string converts to
0 as in JS. Exotic numeric forms (exponent, hexadecimal, Infinity) are not
exercised by any claim and map to NaN here. -/
def jsStringToNumber (s : String) : JSNum :=
  let t := s.trim
  if t = "" then .num 0
  else
    match t.toList with
    | '-' :: rest =>
        match parseUnsignedDec rest with
        | some q => .num (-q)
        | none => .nan
    | '+' :: rest =>
        match parseUnsignedDec rest with
        | some q => .num q
        | none => .nan
    | cs =>
        match parseUnsignedDec cs with
        | some q => .num q
        | none => .nan

/-- The JS builtin Number conversion, as applied by the source at lines 62
and 68 of server.js. -/
def toNumber : JSValue → JSNum
  | .undefined => .nan
  | .null => .num 0
  | .vbool b => .num (if b then 1 else 0)
  | .vnum n => n
  | .vstr s => jsStringToNumber s

/-- JS truthiness of a value, as used by the guard if (!reference) at
lines 79 and 179 of server.js. -/
def jsTruthy : JSValue → Bool
  | .undefined => false
  | .null => false
  | .vbool b => b
  | .vnum .nan => false
  | .vnum (.num q) => decide (q ≠ 0)
  | .vstr s => decide (s ≠ "")

/-- The guard typeof amount !== undefined && amount !== null at lines 101
and 201 of server.js. -/
def amountDefined : JSValue → Bool
  | .undefined => false
  | .null => false
  | _ => true

/-- Embedding of amountsMatch from server.js lines 59-72 (Express server
copy). Returns true on an absent client amount, false when the client
amount converts to NaN, and otherwise compares the gateway amount with the
two rounded interpretations of the client amount. -/
def amountsMatch (clientAmountRaw txAmount : JSValue) : Bool :=
  match clientAmountRaw with
  | .undefined => true
  | .null => true
  | v =>
    match toNumber v with
    | .nan => false
    | .num parsed =>
      match toNumber txAmount with
      | .nan => false
      | .num t =>
        decide (t = ((jsRound parsed : ℤ) : ℚ)) ||
          decide (t = ((jsRound (parsed * 100) : ℤ) : ℚ))

/-- Embedding of the second textual copy of amountsMatch from server.js
lines 142-154 (serverless handler copy), kept as a separate definition
because the source duplicates the function. -/
def amountsMatchSl (clientAmountRaw txAmount : JSValue) : Bool :=
  match clientAmountRaw with
  | .undefined => true
  | .null => true
  | v =>
    match toNumber v with
    | .nan => false
    | .num parsed =>
      match toNumber txAmount with
      | .nan => false
      | .num t =>
        decide (t = ((jsRound parsed : ℤ) : ℚ)) ||
          decide (t = ((jsRound (parsed * 100) : ℤ) : ℚ))

/-- Gateway transaction record, the inner data object of the Paystack
response body; the fields the handlers read or log (server.js lines
98-121). -/
structure Tx where
  status : String
  amount : JSValue
  currency : Option String
  reference : String
  gateway_response : String
  paid_at : String
deriving DecidableEq

/-- Parsed JSON request body, the fields destructured at lines 78 and 177
of server.js. The email field is carried but never read by the logic. -/
structure RequestBody where
  reference : JSValue
  email : Option String
  currency : Option String
  amount : JSValue
deriving DecidableEq

/-- Outcome of the outbound axios GET to the gateway. failure models a
thrown error (network error, timeout, or non-2xx upstream status) carrying
the optional err.response.data payload and the err.message text. success
carries response.data: the outer Option is none when response.data itself
is falsy, the inner Option is none when its data field is falsy (the guard
at lines 93 and 192 of server.js). -/
inductive Upstream where
  | failure : Option String → String → Upstream
  | success : Option (Option Tx) → Upstream
deriving DecidableEq

/-- JSON body written by the handlers: either a verification result with
the transaction passed through, an error body with a verified flag and an
error payload, or the empty body of the preflight response. -/
inductive RespBody where
  | result : Bool → Tx → RespBody
  | err : Bool → String → RespBody
  | empty : RespBody
deriving DecidableEq

/-- An HTTP response: status code plus JSON body. -/
structure Resp where
  status : ℕ
  body : RespBody
deriving DecidableEq

/-- JS a || b on an optional string and a string, with string falsiness:
the left operand wins when present and nonempty. Models the expression
err.response?.data || err.message at lines 124 and 218 of server.js. -/
def jsOrStr (a : Option String) (b : String) : String :=
  match a with
  | some s => if s = "" then b else s
  | none => b

/-- Truthiness of an optional string field (absent, null or empty all
count as falsy), as in the guard currency && tx.currency at lines 109 and
209 of server.js. -/
def strTruthy : Option String → Bool
  | none => false
  | some s => decide (s ≠ "")

/-- Models the JS toUpperCase method used at lines 109 and 209 of
server.js: map the ASCII uppercase conversion over the characters. -/
def jsToUpper (s : String) : String := ⟨s.data.map Char.toUpper⟩

/-- The inline condition currency && tx.currency && currency.toUpperCase()
!== tx.currency.toUpperCase() guarding the currency mismatch branch at
lines 109 and 209 of server.js. -/
def currencyMismatch : Option String → Option String → Bool
  | some cs, some ts =>
      decide (cs ≠ "") && decide (ts ≠ "") && decide (jsToUpper cs ≠ jsToUpper ts)
  | _, _ => false

/-- Value of the verified variable after line 99 of server.js: the status
comparison tx.status === "success". -/
def verifiedAfterStatus (tx : Tx) : Bool := tx.status == "success"

/-- Value of the verified variable after the amount block at lines
101-107 of server.js: forced to false when an amount was supplied and
amountsMatch rejected it. -/
def verifiedAfterAmount (amount : JSValue) (tx : Tx) : Bool :=
  if amountDefined amount && ! amountsMatch amount tx.amount then false
  else verifiedAfterStatus tx

/-- Value of the verified variable after the currency block at lines
109-112 of server.js: forced to false on a currency mismatch. -/
def verifiedFinal (amount : JSValue) (currency : Option String) (tx : Tx) : Bool :=
  if currencyMismatch currency tx.currency then false
  else verifiedAfterAmount amount tx

/-- Embedding of the Express route handler app.post at server.js lines
74-126. The outbound call outcome is passed in as the gw argument; the
branches mirror the source control flow: missing-reference guard (line
79), catch block (lines 122-125), malformed-upstream guard (lines 93-96),
then the verification result (lines 98-121). -/
def serverHandler (body : RequestBody) (gw : Upstream) : Resp :=
  if ! jsTruthy body.reference then
    ⟨400, .err false "Missing reference"⟩
  else
    match gw with
    | .failure respData message =>
        ⟨500, .err false (jsOrStr respData message)⟩
    | .success none =>
        ⟨500, .err false "Invalid response from Paystack"⟩
    | .success (some none) =>
        ⟨500, .err false "Invalid response from Paystack"⟩
    | .success (some (some tx)) =>
        ⟨200, .result (verifiedFinal body.amount body.currency tx) tx⟩

/-- HTTP methods distinguished by the serverless handler. -/
inductive Method where
  | OPTIONS : Method
  | POST : Method
  | GET : Method
  | other : Method
deriving DecidableEq

/-- Default body used when req.body is absent: the destructuring of
req.body || \x7b\x7d at line 177 of server.js leaves every field
undefined. -/
def emptyBody : RequestBody := ⟨.undefined, none, none, .undefined⟩

/-- Embedding of the serverless handler, module.exports at server.js lines
156-221: preflight branch (lines 158-164), method guard (lines 166-168),
missing-credential guard (lines 171-175), missing-reference guard (lines
179-181), catch block (lines 216-220), malformed-upstream guard (lines
192-195), then the verification result (lines 197-215) computed with the
second copy of amountsMatch. -/
def serverlessHandler (method : Method) (secretSet : Bool)
    (reqBody : Option RequestBody) (gw : Upstream) : Resp :=
  if method = .OPTIONS then ⟨204, .empty⟩
  else if method ≠ .POST then ⟨405, .err false "Method Not Allowed"⟩
  else if ! secretSet then ⟨500, .err false "Server misconfiguration"⟩
  else
    let body := reqBody.getD emptyBody
    if ! jsTruthy body.reference then
      ⟨400, .err false "Missing reference"⟩
    else
      match gw with
      | .failure respData message =>
          let payload := jsOrStr respData message
          ⟨500, .err false (if payload = "" then "Unknown error" else payload)⟩
      | .success none =>
          ⟨500, .err false "Invalid response from Paystack"⟩
      | .success (some none) =>
          ⟨500, .err false "Invalid response from Paystack"⟩
      | .success (some (some tx)) =>
          let v1 := tx.status == "success"
          let v2 :=
            if amountDefined body.amount && ! amountsMatchSl body.amount tx.amount then false
            else v1
          let v3 := if currencyMismatch body.currency tx.currency then false else v2
          ⟨200, .result v3 tx⟩

/-- True when the Express route control flow reaches the outbound axios
call at line 83 of server.js: exactly when the reference guard passes. -/
def serverCallsGateway (body : RequestBody) : Bool := jsTruthy body.reference

/-- True when the serverless handler control flow reaches the outbound
axios call at line 186 of server.js: the method, credential and reference
guards all pass. -/
def serverlessCallsGateway (method : Method) (secretSet : Bool)
    (reqBody : Option RequestBody) : Bool :=
  decide (method = .POST) && secretSet && jsTruthy (reqBody.getD emptyBody).reference

/-- Verified flag carried by a response body, when the body has one. -/
def respVerified : RespBody → Option Bool
  | .result v _ => some v
  | .err v _ => some v
  | .empty => none

/-- Transaction payload carried by a response body, when the body has
one. -/
def respData : RespBody → Option Tx
  | .result _ tx => some tx
  | .err _ _ => none
  | .empty => none

lemma amountsMatchSl_eq_amountsMatch (a t : JSValue) :
    amountsMatchSl a t = amountsMatch a t := by
  cases a <;> rfl

lemma amountsMatch_of_present (v : JSValue) (hu : v ≠ JSValue.undefined)
    (hn : v ≠ JSValue.null) (t : JSValue) :
    amountsMatch v t =
      (match toNumber v with
       | .nan => false
       | .num parsed =>
         match toNumber t with
         | .nan => false
         | .num x =>
             decide (x = ((jsRound parsed : ℤ) : ℚ)) ||
               decide (x = ((jsRound (parsed * 100) : ℤ) : ℚ))) := by
  cases v with
  | undefined => exact absurd rfl hu
  | null => exact absurd rfl hn
  | vnum n => rfl
  | vstr s => rfl
  | vbool b => rfl

lemma amountsMatch_num (p t : ℚ) :
    amountsMatch (.vnum (.num p)) (.vnum (.num t)) =
      (decide (t = ((jsRound p : ℤ) : ℚ)) ||
        decide (t = ((jsRound (p * 100) : ℤ) : ℚ))) := rfl

lemma jsRound_intCast (A : ℤ) : jsRound (A : ℚ) = A := by
  rw [jsRound]
  rw [Int.floor_eq_iff]
  constructor
  · linarith
  · linarith

lemma amountsMatch_num_iff (p t : ℚ) :
    amountsMatch (.vnum (.num p)) (.vnum (.num t)) = true ↔
      (t = ((jsRound p : ℤ) : ℚ) ∨ t = ((jsRound (p * 100) : ℤ) : ℚ)) := by
  rw [amountsMatch_num]
  simp

/-- C2: for a defined, non-null client amount v and an integer gateway
amount A, amountsMatch first converts v with Number; a NaN conversion
yields false, and a numeric conversion q yields true exactly when A equals
the rounded value of q (smallest-unit reading) or the rounded value of
q * 100 (main-unit reading). -/
theorem amountsMatch_dual_rule (v : JSValue) (hu : v ≠ JSValue.undefined)
    (hn : v ≠ JSValue.null) (A : ℤ) :
    (toNumber v = JSNum.nan → amountsMatch v (.vnum (.num (A : ℚ))) = false) ∧
    (∀ q : ℚ, toNumber v = JSNum.num q →
      (amountsMatch v (.vnum (.num (A : ℚ))) = true ↔
        A = jsRound q ∨ A = jsRound (q * 100))) := by
  constructor
  · intro h
    rw [amountsMatch_of_present v hu hn, h]
  · intro q hq
    rw [amountsMatch_of_present v hu hn, hq]
    show (decide ((A : ℚ) = ((jsRound q : ℤ) : ℚ)) ||
      decide ((A : ℚ) = ((jsRound (q * 100) : ℤ) : ℚ))) = true ↔ _
    simp [Int.cast_inj]

/-- C2 witness: the client amount 5 matches the gateway amount 500 through
the main-unit reading. -/
theorem amountsMatch_dual_rule_witness :
    amountsMatch (.vnum (.num 5)) (.vnum (.num ((500 : ℤ) : ℚ))) = true := by
  have h := (amountsMatch_dual_rule (.vnum (.num 5))
    (fun hc => JSValue.noConfusion hc) (fun hc => JSValue.noConfusion hc) 500).2 5 rfl
  refine h.mpr (Or.inr ?_)
  rw [show (5 : ℚ) * 100 = ((500 : ℤ) : ℚ) by norm_num, jsRound_intCast]

/-- C3: for every integer gateway amount A (in the smallest unit), the
client inputs A and A / 100 both satisfy amountsMatch against A; for
A = 7500000 in particular, the client amounts 7500000 and 75000 match and
12345 does not. -/
theorem amountsMatch_dual_encoding (A : ℤ) :
    amountsMatch (.vnum (.num (A : ℚ))) (.vnum (.num (A : ℚ))) = true ∧
    amountsMatch (.vnum (.num ((A : ℚ) / 100))) (.vnum (.num (A : ℚ))) = true ∧
    amountsMatch (.vnum (.num 7500000)) (.vnum (.num 7500000)) = true ∧
    amountsMatch (.vnum (.num 75000)) (.vnum (.num 7500000)) = true ∧
    amountsMatch (.vnum (.num 12345)) (.vnum (.num 7500000)) = false := by
  refine ⟨?_, ?_, ?_, ?_, ?_⟩
  · rw [amountsMatch_num]
    simp [jsRound_intCast A]
  · rw [amountsMatch_num]
    have h100 : (A : ℚ) / 100 * 100 = (A : ℚ) := by
      field_simp
    rw [h100, jsRound_intCast A]
    simp
  · refine (amountsMatch_num_iff 7500000 7500000).mpr (Or.inl ?_)
    rw [show (7500000 : ℚ) = ((7500000 : ℤ) : ℚ) by norm_num, jsRound_intCast]
  · refine (amountsMatch_num_iff 75000 7500000).mpr (Or.inr ?_)
    rw [show (75000 : ℚ) * 100 = ((7500000 : ℤ) : ℚ) by norm_num, jsRound_intCast]
    norm_num
  · have h1 : jsRound (12345 : ℚ) = 12345 := by
      rw [show (12345 : ℚ) = ((12345 : ℤ) : ℚ) by norm_num, jsRound_intCast]
    have h2 : jsRound ((12345 : ℚ) * 100) = 1234500 := by
      rw [show (12345 : ℚ) * 100 = ((1234500 : ℤ) : ℚ) by norm_num, jsRound_intCast]
    rw [amountsMatch_num, h1, h2]
    simp only [Bool.or_eq_false_iff, decide_eq_false_iff_not]
    constructor <;> norm_num

/-- C9: amount matching tolerates sub-unit deviations: whenever the client
amount x lies in the half-open interval from A minus one half up to (and
excluding) A plus one half, the smallest-unit reading rounds x to A and
amountsMatch accepts. -/
theorem amountsMatch_rounding_tolerance (A : ℤ) (x : ℚ)
    (h1 : (A : ℚ) - 1/2 ≤ x) (h2 : x < (A : ℚ) + 1/2) :
    amountsMatch (.vnum (.num x)) (.vnum (.num (A : ℚ))) = true := by
  rw [amountsMatch_num]
  have hfl : jsRound x = A := by
    rw [jsRound]
    rw [Int.floor_eq_iff]
    constructor
    · linarith
    · linarith
  simp [hfl]

/-- C9 witness: the client amount 100.4 matches the gateway amount 100. -/
theorem amountsMatch_rounding_tolerance_witness :
    amountsMatch (.vnum (.num (502/5))) (.vnum (.num ((100 : ℤ) : ℚ))) = true :=
  amountsMatch_rounding_tolerance 100 (502/5) (by norm_num) (by norm_num)

lemma verifiedAfterAmount_eq_true_iff (a : JSValue) (tx : Tx) :
    verifiedAfterAmount a tx = true ↔
      (amountDefined a = false ∨ amountsMatch a tx.amount = true) ∧
        tx.status = "success" := by
  cases hd : amountDefined a <;> cases hm : amountsMatch a tx.amount <;>
    simp [verifiedAfterAmount, verifiedAfterStatus, hd, hm]

lemma verifiedFinal_eq_true_iff (a : JSValue) (c : Option String) (tx : Tx) :
    verifiedFinal a c tx = true ↔
      currencyMismatch c tx.currency = false ∧ verifiedAfterAmount a tx = true := by
  cases hc : currencyMismatch c tx.currency <;> simp [verifiedFinal, hc]

lemma currencyMismatch_false_cases (c tc : Option String)
    (h : currencyMismatch c tc = false) :
    strTruthy c = false ∨
      ∀ ts, tc = some ts → ts ≠ "" → jsToUpper (c.getD "") = jsToUpper ts := by
  cases c with
  | none => exact Or.inl rfl
  | some cs =>
    by_cases hcs : cs = ""
    · subst hcs
      exact Or.inl (by simp [strTruthy])
    · refine Or.inr ?_
      intro ts hts hne
      subst hts
      simp [currencyMismatch, hcs, hne] at h
      simpa using h

lemma serverHandler_success (body : RequestBody) (tx : Tx)
    (href : jsTruthy body.reference = true) :
    serverHandler body (.success (some (some tx))) =
      ⟨200, .result (verifiedFinal body.amount body.currency tx) tx⟩ := by
  simp [serverHandler, href]

lemma serverlessHandler_success (body : RequestBody) (tx : Tx)
    (href : jsTruthy body.reference = true) :
    serverlessHandler .POST true (some body) (.success (some (some tx))) =
      ⟨200, .result (verifiedFinal body.amount body.currency tx) tx⟩ := by
  simp [serverlessHandler, href, verifiedFinal, verifiedAfterAmount,
    verifiedAfterStatus, amountsMatchSl_eq_amountsMatch]

/-- C1: whichever handler variant produced it, a 200 response carrying
verified = true implies that the gateway transaction status is the literal
string success, that either no amount was supplied or amountsMatch
accepted it, and that either no currency was supplied or the supplied
currency equals every gateway-reported (nonempty) currency up to case.
When the gateway reports no currency there is nothing to compare, so the
match condition is stated over the reported values. -/
theorem verified_true_requires_checks (body : RequestBody) (gw : Upstream) (tx : Tx)
    (h : serverHandler body gw = ⟨200, .result true tx⟩ ∨
      serverlessHandler .POST true (some body) gw = ⟨200, .result true tx⟩) :
    tx.status = "success" ∧
    (amountDefined body.amount = false ∨ amountsMatch body.amount tx.amount = true) ∧
    (strTruthy body.currency = false ∨
      ∀ ts, tx.currency = some ts → ts ≠ "" →
        jsToUpper (body.currency.getD "") = jsToUpper ts) := by
  have hval : verifiedFinal body.amount body.currency tx = true ∧
      ∃ tx0, gw = Upstream.success (some (some tx0)) ∧ tx0 = tx := by
    by_cases href : jsTruthy body.reference
    · cases gw with
      | failure d m =>
        rcases h with h | h <;> simp [serverHandler, serverlessHandler, href] at h
      | success pb =>
        match pb with
        | none =>
          rcases h with h | h <;> simp [serverHandler, serverlessHandler, href] at h
        | some none =>
          rcases h with h | h <;> simp [serverHandler, serverlessHandler, href] at h
        | some (some tx0) =>
          rcases h with h | h
          · rw [serverHandler_success body tx0 href] at h
            obtain ⟨hv, htx⟩ := by
              have := congrArg Resp.body h
              simpa [RespBody.result.injEq] using this
            exact ⟨htx ▸ hv, tx0, rfl, htx⟩
          · rw [serverlessHandler_success body tx0 href] at h
            obtain ⟨hv, htx⟩ := by
              have := congrArg Resp.body h
              simpa [RespBody.result.injEq] using this
            exact ⟨htx ▸ hv, tx0, rfl, htx⟩
    · rcases h with h | h <;>
        simp [serverHandler, serverlessHandler, href] at h
  obtain ⟨hcm, ha⟩ := (verifiedFinal_eq_true_iff _ _ _).mp hval.1
  obtain ⟨ham, hst⟩ := (verifiedAfterAmount_eq_true_iff _ _).mp ha
  exact ⟨hst, ham, currencyMismatch_false_cases _ _ hcm⟩

/-- C1 witness: a successful transaction with no client amount or
currency yields verified = true, and the necessary conditions hold at that
input. -/
theorem verified_true_requires_checks_witness :
    (Tx.mk "success" (.vnum (.num 100)) (some "NGN") "ref" "ok" "now").status = "success" ∧
    (amountDefined JSValue.undefined = false ∨
      amountsMatch JSValue.undefined (.vnum (.num 100)) = true) ∧
    (strTruthy (none : Option String) = false ∨
      ∀ ts, (some "NGN" : Option String) = some ts → ts ≠ "" →
        jsToUpper ((none : Option String).getD "") = jsToUpper ts) :=
  verified_true_requires_checks ⟨.vstr "ref", none, none, .undefined⟩
    (.success (some (some ⟨"success", .vnum (.num 100), some "NGN", "ref", "ok", "now"⟩)))
    ⟨"success", .vnum (.num 100), some "NGN", "ref", "ok", "now"⟩ (Or.inl rfl)

/-- C4: a request whose reference is absent (undefined) or the empty
string is answered 400 with verified false and the error text Missing
reference by both handler variants, and neither control flow reaches the
outbound gateway call; the conclusion holds for every gateway outcome gw,
so the response is independent of the gateway. -/
theorem missing_reference_rejected (body : RequestBody) (gw : Upstream)
    (h : body.reference = JSValue.undefined ∨ body.reference = JSValue.vstr "") :
    serverHandler body gw = ⟨400, .err false "Missing reference"⟩ ∧
    serverlessHandler .POST true (some body) gw = ⟨400, .err false "Missing reference"⟩ ∧
    serverCallsGateway body = false ∧
    serverlessCallsGateway .POST true (some body) = false := by
  have htr : jsTruthy body.reference = false := by
    rcases h with h | h <;> rw [h] <;> simp [jsTruthy]
  refine ⟨?_, ?_, htr, ?_⟩
  · simp [serverHandler, htr]
  · simp [serverlessHandler, htr]
  · simp [serverlessCallsGateway, htr]

/-- C4 witness: the empty-bodied request with an undefined reference is
rejected by both variants without a gateway call. -/
theorem missing_reference_rejected_witness :
    serverHandler ⟨.undefined, none, none, .undefined⟩ (.success none) =
      ⟨400, .err false "Missing reference"⟩ ∧
    serverlessHandler .POST true (some ⟨.undefined, none, none, .undefined⟩) (.success none) =
      ⟨400, .err false "Missing reference"⟩ ∧
    serverCallsGateway ⟨.undefined, none, none, .undefined⟩ = false ∧
    serverlessCallsGateway .POST true (some ⟨.undefined, none, none, .undefined⟩) = false :=
  missing_reference_rejected ⟨.undefined, none, none, .undefined⟩ (.success none) (Or.inl rfl)

/-- C5: when the gateway response body is falsy or lacks its inner data
object, both variants answer 500 with the error text Invalid response from
Paystack; in particular the status is never 200, so the case is not
reported as an ordinary not-verified result. -/
theorem malformed_upstream_500 (body : RequestBody) (pb : Option (Option Tx))
    (href : jsTruthy body.reference = true) (hmal : pb = none ∨ pb = some none) :
    serverHandler body (.success pb) = ⟨500, .err false "Invalid response from Paystack"⟩ ∧
    serverlessHandler .POST true (some body) (.success pb) =
      ⟨500, .err false "Invalid response from Paystack"⟩ ∧
    (serverHandler body (.success pb)).status ≠ 200 ∧
    (serverlessHandler .POST true (some body) (.success pb)).status ≠ 200 := by
  rcases hmal with h | h <;> subst h <;>
    exact ⟨by simp [serverHandler, href], by simp [serverlessHandler, href],
      by simp [serverHandler, href], by simp [serverlessHandler, href]⟩

/-- C5 witness: a present reference with a response body lacking the data
field gives the 500 outcome in both variants. -/
theorem malformed_upstream_500_witness :
    serverHandler ⟨.vstr "r", none, none, .undefined⟩ (.success (some none)) =
      ⟨500, .err false "Invalid response from Paystack"⟩ ∧
    serverlessHandler .POST true (some ⟨.vstr "r", none, none, .undefined⟩) (.success (some none)) =
      ⟨500, .err false "Invalid response from Paystack"⟩ ∧
    (serverHandler ⟨.vstr "r", none, none, .undefined⟩ (.success (some none))).status ≠ 200 ∧
    (serverlessHandler .POST true (some ⟨.vstr "r", none, none, .undefined⟩)
      (.success (some none))).status ≠ 200 :=
  malformed_upstream_500 ⟨.vstr "r", none, none, .undefined⟩ (some none)
    (by simp [jsTruthy]) (Or.inr rfl)

/-- C10: the reference guard uses JS truthiness, so any falsy reference
value is answered 400 with the Missing reference error by both variants;
the numbers 0 and NaN, the boolean false and null are all falsy. -/
theorem falsy_reference_rejected (body : RequestBody) (gw : Upstream)
    (h : jsTruthy body.reference = false) :
    serverHandler body gw = ⟨400, .err false "Missing reference"⟩ ∧
    serverlessHandler .POST true (some body) gw = ⟨400, .err false "Missing reference"⟩ ∧
    jsTruthy (.vnum (.num 0)) = false ∧
    jsTruthy (.vbool false) = false ∧
    jsTruthy JSValue.null = false ∧
    jsTruthy (.vnum .nan) = false := by
  refine ⟨by simp [serverHandler, h], by simp [serverlessHandler, h], ?_, rfl, rfl, rfl⟩
  simp [jsTruthy]

/-- C10 witness: a JSON body carrying the number 0 as its reference is
rejected with 400 by both variants. -/
theorem falsy_reference_rejected_witness :
    serverHandler ⟨.vnum (.num 0), none, none, .undefined⟩ (.success none) =
      ⟨400, .err false "Missing reference"⟩ ∧
    serverlessHandler .POST true (some ⟨.vnum (.num 0), none, none, .undefined⟩) (.success none) =
      ⟨400, .err false "Missing reference"⟩ ∧
    jsTruthy (.vnum (.num 0)) = false ∧
    jsTruthy (.vbool false) = false ∧
    jsTruthy JSValue.null = false ∧
    jsTruthy (.vnum .nan) = false :=
  falsy_reference_rejected ⟨.vnum (.num 0), none, none, .undefined⟩ (.success none)
    (by simp [jsTruthy])

lemma currencyMismatch_false_of_absent (c tc : Option String)
    (h : strTruthy c = false ∨ strTruthy tc = false) :
    currencyMismatch c tc = false := by
  cases c with
  | none => rfl
  | some cs =>
    cases tc with
    | none => rfl
    | some ts =>
      rcases h with h | h <;> simp [strTruthy] at h <;> simp [currencyMismatch, h]

lemma currencyMismatch_false_of_match (cs ts : String)
    (h : jsToUpper cs = jsToUpper ts) :
    currencyMismatch (some cs) (some ts) = false := by
  simp [currencyMismatch, h]

lemma currencyMismatch_true_of_mismatch (cs ts : String) (hcs : cs ≠ "")
    (hts : ts ≠ "") (h : jsToUpper cs ≠ jsToUpper ts) :
    currencyMismatch (some cs) (some ts) = true := by
  simp [currencyMismatch, hcs, hts, h]

lemma verifiedFinal_of_no_mismatch (a : JSValue) (c : Option String) (tx : Tx)
    (h : currencyMismatch c tx.currency = false) :
    verifiedFinal a c tx = verifiedAfterAmount a tx := by
  rw [verifiedFinal, h]
  simp

lemma verifiedFinal_of_mismatch (a : JSValue) (c : Option String) (tx : Tx)
    (h : currencyMismatch c tx.currency = true) :
    verifiedFinal a c tx = false := by
  rw [verifiedFinal, h]
  simp

/-- C6: with a well-formed gateway response, both variants answer 200 and
embed the transaction verbatim, whatever the verified flag turns out to
be; a status other than success, a rejected supplied amount, or a currency
mismatch each force the flag to false while the status code stays 200. -/
theorem wellformed_response_200 (body : RequestBody) (tx : Tx)
    (href : jsTruthy body.reference = true) :
    ∃ v : Bool,
      serverHandler body (.success (some (some tx))) = ⟨200, .result v tx⟩ ∧
      serverlessHandler .POST true (some body) (.success (some (some tx))) =
        ⟨200, .result v tx⟩ ∧
      (tx.status ≠ "success" → v = false) ∧
      (amountDefined body.amount = true → amountsMatch body.amount tx.amount = false →
        v = false) ∧
      (currencyMismatch body.currency tx.currency = true → v = false) := by
  refine ⟨verifiedFinal body.amount body.currency tx,
    serverHandler_success body tx href, serverlessHandler_success body tx href, ?_, ?_, ?_⟩
  · intro hst
    cases hval : verifiedFinal body.amount body.currency tx with
    | false => rfl
    | true =>
      obtain ⟨-, ha⟩ := (verifiedFinal_eq_true_iff _ _ _).mp hval
      obtain ⟨-, hs⟩ := (verifiedAfterAmount_eq_true_iff _ _).mp ha
      exact absurd hs hst
  · intro hd hm
    cases hval : verifiedFinal body.amount body.currency tx with
    | false => rfl
    | true =>
      obtain ⟨-, ha⟩ := (verifiedFinal_eq_true_iff _ _ _).mp hval
      obtain ⟨hor, -⟩ := (verifiedAfterAmount_eq_true_iff _ _).mp ha
      rcases hor with h | h
      · rw [hd] at h
        exact Bool.noConfusion h
      · rw [hm] at h
        exact Bool.noConfusion h
  · intro hc
    cases hval : verifiedFinal body.amount body.currency tx with
    | false => rfl
    | true =>
      obtain ⟨hcm, -⟩ := (verifiedFinal_eq_true_iff _ _ _).mp hval
      rw [hc] at hcm
      exact Bool.noConfusion hcm

/-- C6 witness: a failed transaction still yields a 200 response, with
verified false and the transaction passed through. -/
theorem wellformed_response_200_witness :
    serverHandler ⟨.vstr "r", none, none, .undefined⟩
        (.success (some (some ⟨"failed", .vnum (.num 100), some "NGN", "r", "declined", "now"⟩))) =
      ⟨200, .result false ⟨"failed", .vnum (.num 100), some "NGN", "r", "declined", "now"⟩⟩ := by
  obtain ⟨v, h1, -, h3, -, -⟩ := wellformed_response_200 ⟨.vstr "r", none, none, .undefined⟩
    ⟨"failed", .vnum (.num 100), some "NGN", "r", "declined", "now"⟩ (by simp [jsTruthy])
  rw [h3 (by simp)] at h1
  exact h1

/-- C7: the currency check fires only when both the supplied currency and
the gateway currency are truthy: if either is absent or empty the response
carries the verdict computed from status and amount alone; when both are
present, an upper-case-equal pair leaves the verdict unchanged and an
upper-case-unequal pair forces verified to false. -/
theorem currency_check_semantics (body : RequestBody) (tx : Tx)
    (href : jsTruthy body.reference = true) :
    ((strTruthy body.currency = false ∨ strTruthy tx.currency = false) →
      serverHandler body (.success (some (some tx))) =
        ⟨200, .result (verifiedAfterAmount body.amount tx) tx⟩) ∧
    (∀ cs ts, body.currency = some cs → tx.currency = some ts → cs ≠ "" → ts ≠ "" →
      jsToUpper cs = jsToUpper ts →
      serverHandler body (.success (some (some tx))) =
        ⟨200, .result (verifiedAfterAmount body.amount tx) tx⟩) ∧
    (∀ cs ts, body.currency = some cs → tx.currency = some ts → cs ≠ "" → ts ≠ "" →
      jsToUpper cs ≠ jsToUpper ts →
      serverHandler body (.success (some (some tx))) = ⟨200, .result false tx⟩) := by
  refine ⟨?_, ?_, ?_⟩
  · intro h
    rw [serverHandler_success body tx href,
      verifiedFinal_of_no_mismatch _ _ _ (currencyMismatch_false_of_absent _ _ h)]
  · intro cs ts hc htc hcs hts hU
    rw [serverHandler_success body tx href]
    rw [show verifiedFinal body.amount body.currency tx = verifiedAfterAmount body.amount tx
      from by
        apply verifiedFinal_of_no_mismatch
        rw [hc, htc]
        exact currencyMismatch_false_of_match cs ts hU]
  · intro cs ts hc htc hcs hts hU
    rw [serverHandler_success body tx href]
    rw [show verifiedFinal body.amount body.currency tx = false from by
      apply verifiedFinal_of_mismatch
      rw [hc, htc]
      exact currencyMismatch_true_of_mismatch cs ts hcs hts hU]

/-- C7 witness: the supplied currency ngn matches the gateway currency NGN
case-insensitively, so a successful transaction verifies. -/
theorem currency_check_semantics_witness :
    serverHandler ⟨.vstr "r", none, some "ngn", .undefined⟩
        (.success (some (some ⟨"success", .vnum (.num 100), some "NGN", "r", "ok", "now"⟩))) =
      ⟨200, .result true ⟨"success", .vnum (.num 100), some "NGN", "r", "ok", "now"⟩⟩ := by
  have h := (currency_check_semantics ⟨.vstr "r", none, some "ngn", .undefined⟩
    ⟨"success", .vnum (.num 100), some "NGN", "r", "ok", "now"⟩ (by simp [jsTruthy])).2.1
    "ngn" "NGN" rfl rfl (by simp) (by simp) (by decide)
  exact h

/-- C8: on the shared code paths (POST method, credential configured,
request body present) the Express route and the serverless handler agree
for every request body and every gateway outcome: same status code, same
verified flag and same embedded transaction payload. -/
theorem handlers_agree (body : RequestBody) (gw : Upstream) :
    (serverHandler body gw).status =
      (serverlessHandler .POST true (some body) gw).status ∧
    respVerified (serverHandler body gw).body =
      respVerified (serverlessHandler .POST true (some body) gw).body ∧
    respData (serverHandler body gw).body =
      respData (serverlessHandler .POST true (some body) gw).body := by
  by_cases href : jsTruthy body.reference
  · cases gw with
    | failure d m =>
      simp [serverHandler, serverlessHandler, href, respVerified, respData]
    | success pb =>
      match pb with
      | none =>
        simp [serverHandler, serverlessHandler, href, respVerified, respData]
      | some none =>
        simp [serverHandler, serverlessHandler, href, respVerified, respData]
      | some (some tx) =>
        rw [serverHandler_success body tx href, serverlessHandler_success body tx href]
        exact ⟨rfl, rfl, rfl⟩
  · have h : jsTruthy body.reference = false := by
      simpa using href
    simp [serverHandler, serverlessHandler, h, respVerified, respData]
